import Mathlib

/-!
Verification of the query-construction engine and result shaper of the
Oldspeak Classical-Chinese collocation dictionary API
(src/API/myapp/myapp/main.py, endpoint `search_dependencies`).

The Python code builds a parametrized SQL string with `$n` placeholders and a
positional argument list.  We embed the construction shallowly: an SQL string
under construction is a `List Frag`, where `Frag.lit s` is literal text and
`Frag.ph n` is the interpolation of a placeholder `${n}` (rendered as `$n` by
`renderFrags`).  Optional request fields follow Python truthiness (`None` and
`""`/`[]` are falsy), exactly as the `if head_text:` tests in the source.
-/

namespace Oldspeak

/-- A fragment of SQL text: literal text or a `$n` placeholder occurrence. -/
inductive Frag where
  | lit (s : String)
  | ph (n : Nat)
deriving DecidableEq

/-- A bound parameter value (Python str / list-of-str / int). -/
inductive Val where
  | str (s : String)
  | strList (l : List String)
  | int (n : Int)
deriving DecidableEq

/-- The filter request, with the FastAPI defaults of `search_dependencies`. -/
structure FilterRequest where
  head_text : Option String := none
  head_pos : Option (List String) := none
  dpdt_text : Option String := none
  dpdt_pos : Option (List String) := none
  dep_type : Option (List String) := none
  freq_inf : Int := 1
  freq_sup : Option Int := none
  results_limit : Int := 8
  results_offset : Int := 0
  examples_limit : Int := 5
  examples_offset : Int := 0
  book_names : Option (List String) := none
  book_categories : Option (List String) := none
  book_periods : Option (List String) := none
  book_styles : Option (List String) := none
deriving DecidableEq

/-- Python truthiness of an optional string (`None` and `""` are falsy). -/
def pyTruthyStr : Option String → Bool
  | none => false
  | some s => s != ""

/-- Python truthiness of an optional list (`None` and `[]` are falsy). -/
def pyTruthyList : Option (List String) → Bool
  | none => false
  | some l => !l.isEmpty

/-- Transport-layer guarantees (`Query(..., ge/gt=...)`) plus the
at-least-one-text-filter invariant checked at line 81 of the source. -/
def validRequestB (r : FilterRequest) : Bool :=
  (pyTruthyStr r.head_text || pyTruthyStr r.dpdt_text) &&
  decide (1 ≤ r.freq_inf) &&
  (match r.freq_sup with | none => true | some v => decide (1 ≤ v)) &&
  decide (0 < r.results_limit) && decide (0 ≤ r.results_offset) &&
  decide (0 < r.examples_limit) && decide (0 ≤ r.examples_offset)

abbrev validRequest (r : FilterRequest) : Prop := validRequestB r = true

/-! ## WHERE-clause construction (main.py lines 89-128) -/

/-- The mutable triple `(where_clauses, params, param_counter)` of the source. -/
structure WhereState where
  where_clauses : List (List Frag)
  params : List Val
  param_counter : Nat
deriving DecidableEq

/-- One `if <filter>: where_clauses.append(...); params.append(...);
param_counter += 1` block of the source. -/
def whereStep (cond : Bool) (mkClause : Nat → List Frag) (v : Val)
    (st : WhereState) : WhereState :=
  if cond then
    { where_clauses := st.where_clauses ++ [mkClause st.param_counter]
      params := st.params ++ [v]
      param_counter := st.param_counter + 1 }
  else st

/-- Lines 89-117: the five conditional predicate/parameter appends, in source
order (head_text, dpdt_text, head_pos, dpdt_pos, dep_type). -/
def whereState (r : FilterRequest) : WhereState :=
  let st0 : WhereState := ⟨[], [], 1⟩
  let st1 := whereStep (pyTruthyStr r.head_text)
    (fun n => [.lit "head_text LIKE ", .ph n])
    (.str ("%" ++ r.head_text.getD "" ++ "%")) st0
  let st2 := whereStep (pyTruthyStr r.dpdt_text)
    (fun n => [.lit "dependent_text LIKE ", .ph n])
    (.str ("%" ++ r.dpdt_text.getD "" ++ "%")) st1
  let st3 := whereStep (pyTruthyList r.head_pos)
    (fun n => [.lit "head_pos = ANY(", .ph n, .lit "::text[])"])
    (.strList (r.head_pos.getD [])) st2
  let st4 := whereStep (pyTruthyList r.dpdt_pos)
    (fun n => [.lit "dependent_pos = ANY(", .ph n, .lit "::text[])"])
    (.strList (r.dpdt_pos.getD [])) st3
  whereStep (pyTruthyList r.dep_type)
    (fun n => [.lit "dependency_type = ANY(", .ph n, .lit "::text[])"])
    (.strList (r.dep_type.getD [])) st4

/-- Number of WHERE predicates appended (length of `where_clauses`/prefix of
`params`). -/
def whereCount (r : FilterRequest) : Nat := (whereState r).params.length

/-! ## Placeholder-position bookkeeping (lines 130-172) -/

/-- Line 131: `freq_inf_pos = param_counter`. -/
def freq_inf_pos (r : FilterRequest) : Nat := (whereState r).param_counter

/-- Lines 134-137: `freq_sup_pos` is assigned only when `freq_sup is not None`. -/
def freq_sup_pos (r : FilterRequest) : Option Nat :=
  if r.freq_sup.isSome then some (freq_inf_pos r + 1) else none

/-- The counter value after the frequency positions. -/
def pcAfterFreq (r : FilterRequest) : Nat :=
  freq_inf_pos r + 1 + (r.freq_sup.isSome).toNat

/-- Lines 140-143. -/
def book_names_pos (r : FilterRequest) : Option Nat :=
  if pyTruthyList r.book_names then some (pcAfterFreq r) else none

def pcAfterNames (r : FilterRequest) : Nat :=
  pcAfterFreq r + (pyTruthyList r.book_names).toNat

/-- Lines 145-148. -/
def categories_pos (r : FilterRequest) : Option Nat :=
  if pyTruthyList r.book_categories then some (pcAfterNames r) else none

def pcAfterCategories (r : FilterRequest) : Nat :=
  pcAfterNames r + (pyTruthyList r.book_categories).toNat

/-- Lines 150-153. -/
def periods_pos (r : FilterRequest) : Option Nat :=
  if pyTruthyList r.book_periods then some (pcAfterCategories r) else none

def pcAfterPeriods (r : FilterRequest) : Nat :=
  pcAfterCategories r + (pyTruthyList r.book_periods).toNat

/-- Lines 155-158. -/
def styles_pos (r : FilterRequest) : Option Nat :=
  if pyTruthyList r.book_styles then some (pcAfterPeriods r) else none

def pcAfterStyles (r : FilterRequest) : Nat :=
  pcAfterPeriods r + (pyTruthyList r.book_styles).toNat

/-- Number of truthy book filters. -/
def bookCount (r : FilterRequest) : Nat :=
  (pyTruthyList r.book_names).toNat + (pyTruthyList r.book_categories).toNat +
  (pyTruthyList r.book_periods).toNat + (pyTruthyList r.book_styles).toNat

/-- Lines 160-162. -/
def examples_limit_pos (r : FilterRequest) : Nat := pcAfterStyles r

/-- Lines 164-165. -/
def examples_offset_pos (r : FilterRequest) : Nat := pcAfterStyles r + 1

/-- Lines 167-169. -/
def results_limit_pos (r : FilterRequest) : Nat := pcAfterStyles r + 2

/-- Lines 171-172. -/
def results_offset_pos (r : FilterRequest) : Nat := pcAfterStyles r + 3

/-! ## SQL fragment assembly (lines 174-231) -/

/-- `' AND '.join` and similar joins, at the fragment level. -/
def joinFrags (sep : List Frag) : List (List Frag) → List Frag
  | [] => []
  | [c] => c
  | c :: cs => c ++ sep ++ joinFrags sep cs

/-- Line 128: `final_where_sql = " AND ".join(where_clauses)`. -/
def final_where_frags (r : FilterRequest) : List Frag :=
  joinFrags [.lit " AND "] (whereState r).where_clauses

/-- Lines 175-183: the reusable book-filter conditions, in source order. -/
def book_filter_conditions (r : FilterRequest) : List (List Frag) :=
  (if pyTruthyList r.book_names then
    [[Frag.lit "name = ANY(", .ph ((book_names_pos r).getD 0), .lit "::text[])"]]
   else []) ++
  (if pyTruthyList r.book_categories then
    [[Frag.lit "category = ANY(", .ph ((categories_pos r).getD 0), .lit "::text[])"]]
   else []) ++
  (if pyTruthyList r.book_periods then
    [[Frag.lit "period = ANY(", .ph ((periods_pos r).getD 0), .lit "::text[])"]]
   else []) ++
  (if pyTruthyList r.book_styles then
    [[Frag.lit "style = ANY(", .ph ((styles_pos r).getD 0), .lit "::text[])"]]
   else [])

def bfiPre : String :=
  "\n                INNER JOIN (\n                    SELECT name FROM books\n                    WHERE "

def bfiPost : String :=
  "\n                ) AS boo ON boo.name = e->>\x27book\x27\n                "

/-- Lines 187-194: `books_filter_inner_sql`, empty when no book filter is
truthy, otherwise the INNER JOIN fragment. -/
def books_filter_inner_sql (r : FilterRequest) : List Frag :=
  if (book_filter_conditions r).isEmpty then [Frag.lit ""]
  else [Frag.lit bfiPre] ++ joinFrags [.lit " AND "] (book_filter_conditions r)
       ++ [Frag.lit bfiPost]

def efPre : String :=
  "\n                (SELECT jsonb_agg(e) FROM (\n                    SELECT e FROM jsonb_array_elements(examples) AS e\n                    "

def efMid : String := " -- Use the reusable filter\n                    LIMIT "

def efPost : String := "\n                ) AS limited_examples)\n            "

/-- Lines 197-203: the limited-examples subquery. -/
def example_fetch_sql (r : FilterRequest) : List Frag :=
  [Frag.lit efPre] ++ books_filter_inner_sql r ++
  [Frag.lit efMid, .ph (examples_limit_pos r), .lit " OFFSET ",
   .ph (examples_offset_pos r), .lit efPost]

def tcPre : String :=
  "\n                (SELECT COUNT(*)\n                FROM jsonb_array_elements(examples) AS e\n                "

def tcPost : String := " -- Use the reusable filter\n                )\n            "

/-- Lines 206-211: the example-count subquery. -/
def total_matching_examples_count_sql (r : FilterRequest) : List Frag :=
  [Frag.lit tcPre] ++ books_filter_inner_sql r ++ [Frag.lit tcPost]

def qtHead : String :=
  "\n                SELECT\n                    dependent_text, dependent_pos, head_text, head_pos,\n                    dependency_type,\n                    "

def qtAfterExamples : String :=
  " AS examples,\n                    mv_token_collocations.frequency, -- KEEP original frequency column\n                    "

def qtAfterCount : String :=
  " AS example_count, -- NEW column for total examples\n                    COUNT(*) OVER() AS total_collocations_count -- Renamed for clarity\n                FROM\n                    mv_token_collocations\n                WHERE\n                    "

def qtFreqInf : String := "\n                    AND mv_token_collocations.frequency >= "

def qtAfterFreqInf : String := "\n                    "

def qtFreqSupLit : String := "AND mv_token_collocations.frequency <= "

def qtOrderLimit : String :=
  "\n                ORDER BY\n                    example_count DESC\n                LIMIT "

def qtTail : String := ";\n            "

/-- Lines 214-231: the full query template. -/
def query_template (r : FilterRequest) : List Frag :=
  [Frag.lit qtHead] ++ example_fetch_sql r ++
  [Frag.lit qtAfterExamples] ++ total_matching_examples_count_sql r ++
  [Frag.lit qtAfterCount] ++ final_where_frags r ++
  [Frag.lit qtFreqInf, .ph (freq_inf_pos r), .lit qtAfterFreqInf] ++
  (if r.freq_sup.isSome then [Frag.lit qtFreqSupLit, .ph ((freq_sup_pos r).getD 0)]
   else [Frag.lit ""]) ++
  [Frag.lit qtOrderLimit, .ph (results_limit_pos r), .lit " OFFSET ",
   .ph (results_offset_pos r), .lit qtTail]

/-! ## Argument list assembly (lines 233-252) -/

/-- Lines 233-252: the parameters appended after the WHERE-clause parameters,
in source order. -/
def paramsTail (r : FilterRequest) : List Val :=
  [Val.int r.freq_inf] ++
  (match r.freq_sup with | some v => [Val.int v] | none => []) ++
  (if pyTruthyList r.book_names then [Val.strList (r.book_names.getD [])] else []) ++
  (if pyTruthyList r.book_categories then [Val.strList (r.book_categories.getD [])] else []) ++
  (if pyTruthyList r.book_periods then [Val.strList (r.book_periods.getD [])] else []) ++
  (if pyTruthyList r.book_styles then [Val.strList (r.book_styles.getD [])] else []) ++
  [Val.int r.examples_limit, Val.int r.examples_offset,
   Val.int r.results_limit, Val.int r.results_offset]

/-- The complete emitted argument list `params`. -/
def paramsList (r : FilterRequest) : List Val :=
  (whereState r).params ++ paramsTail r

/-! ## Rendering fragments to query text, and scanning text for placeholders -/

def renderFrag : Frag → String
  | .lit s => s
  | .ph n => "$" ++ toString n

/-- The query text denoted by a fragment list (what the f-strings produce). -/
def renderFrags : List Frag → String
  | [] => ""
  | f :: fs => renderFrag f ++ renderFrags fs

/-- Placeholder indices referenced by a fragment list, in textual order. -/
def phs (fs : List Frag) : List Nat :=
  fs.filterMap (fun f => match f with | .ph n => some n | .lit _ => none)

/-- State of the text scanner: outside a placeholder, just after a `$`, or
inside the digit run of a placeholder whose value so far is `n`. -/
inductive ScanSt where
  | plain
  | dollar
  | num (n : Nat)

/-- Scan raw text for maximal `$<digits>` placeholder occurrences. -/
def scanPH : ScanSt → List Char → List Nat
  | .num n, [] => [n]
  | .plain, [] => []
  | .dollar, [] => []
  | .plain, c :: rest =>
      if c = '$' then scanPH .dollar rest else scanPH .plain rest
  | .dollar, c :: rest =>
      if c.isDigit then scanPH (.num (c.toNat - 48)) rest
      else if c = '$' then scanPH .dollar rest
      else scanPH .plain rest
  | .num n, c :: rest =>
      if c.isDigit then scanPH (.num (n * 10 + (c.toNat - 48))) rest
      else if c = '$' then n :: scanPH .dollar rest
      else n :: scanPH .plain rest

/-- All placeholder indices `$i` occurring in a query text, in order. -/
def scanPlaceholders (s : String) : List Nat := scanPH .plain s.data

/-- Substring test (used to state facts about concrete query text). -/
def hasSub (pat : List Char) : List Char → Bool
  | [] => pat.isEmpty
  | c :: rest => pat.isPrefixOf (c :: rest) || hasSub pat rest

def containsSubstr (hay pat : String) : Bool := hasSub pat.data hay.data

/-! ## Result shaper (lines 259-270) -/

/-- A fetched row, as the `dict(row)` of the source: an association list with
unique keys. -/
abbrev Row := List (String × Val)

def tccKey : String := "total_collocations_count"

/-- Line 264: `row.pop("total_collocations_count", None)`. -/
def popField (k : String) (row : Row) : Row := row.filter (fun p => p.1 != k)

/-- Lines 259-270: read `total_collocations_count` from the first row (0 when
empty), strip the field from every row.  `none` models the `KeyError` raised
when a non-empty row set lacks the field (caught by the generic handler). -/
def resultShape (rows : List Row) : Option (Val × List Row) :=
  match rows with
  | [] => some (Val.int 0, [])
  | first :: rest =>
    match List.lookup tccKey first with
    | none => none
    | some total => some (total, (first :: rest).map (popField tccKey))

/-! ## The endpoint with its effect trace (lines 80-277) -/

/-- Outcome of the single `connection.fetch` round trip. -/
inductive DbOutcome where
  | rows (rs : List Row)
  | pgError (edetail : Option String) (emessage : String)
  | otherError (msg : String)

/-- What the endpoint returns over HTTP. -/
inductive HttpOutcome where
  | ok (total : Val) (results : List Row)
  | error (status : Nat) (detail : String)
deriving DecidableEq

/-- Operator-log records written by the handler. -/
inductive LogEntry where
  | infoExecuting (ps : List Val)
  | errorDb (edetail : Option String) (emessage : String)
  | errorUnexpected (msg : String)
deriving DecidableEq

/-- Queries sent to the store, and log records, in order. -/
structure SearchTrace where
  queries : List (String × List Val)
  logs : List LogEntry
deriving DecidableEq

def badRequestMsg : String :=
  "At least one of \x27head_text\x27 or \x27dpdt_text\x27 must be provided."

/-- Python `e.detail or e.message` (line 274): `None`/`""` detail falls back
to the message. -/
def pyOr (a : Option String) (b : String) : String :=
  match a with
  | none => b
  | some s => if s = "" then b else s

/-- The `search_dependencies` handler: validation, query build, fetch, shaping
and error mapping, with the store interaction abstracted as `db`. -/
def search_dependencies (r : FilterRequest) (db : DbOutcome) :
    HttpOutcome × SearchTrace :=
  if !pyTruthyStr r.head_text && !pyTruthyStr r.dpdt_text then
    (.error 400 badRequestMsg, ⟨[], []⟩)
  else
    let q := renderFrags (query_template r)
    let ps := paramsList r
    match db with
    | .rows rs =>
      match resultShape rs with
      | some (total, out) =>
        (.ok total out, ⟨[(q, ps)], [.infoExecuting ps]⟩)
      | none =>
        (.error 500 "Internal Server Error",
         ⟨[(q, ps)], [.infoExecuting ps, .errorUnexpected tccKey]⟩)
    | .pgError d m =>
      (.error 500 ("Database error: " ++ pyOr d m),
       ⟨[(q, ps)], [.infoExecuting ps, .errorDb d m]⟩)
    | .otherError m =>
      (.error 500 "Internal Server Error",
       ⟨[(q, ps)], [.infoExecuting ps, .errorUnexpected m]⟩)

/-! ## Basic lemmas about fragments and placeholders -/

@[simp] theorem phs_nil : phs [] = [] := rfl

@[simp] theorem phs_cons_lit (s : String) (fs : List Frag) :
    phs (Frag.lit s :: fs) = phs fs := rfl

@[simp] theorem phs_cons_ph (n : Nat) (fs : List Frag) :
    phs (Frag.ph n :: fs) = n :: phs fs := rfl

@[simp] theorem phs_append (a b : List Frag) : phs (a ++ b) = phs a ++ phs b :=
  List.filterMap_append ..

theorem ph_mem_iff (n : Nat) (fs : List Frag) : Frag.ph n ∈ fs ↔ n ∈ phs fs := by
  constructor
  · intro h
    exact List.mem_filterMap.mpr ⟨Frag.ph n, h, rfl⟩
  · intro h
    rcases List.mem_filterMap.mp h with ⟨f, hf, he⟩
    cases f with
    | lit s => simp at he
    | ph m => simp at he; subst he; exact hf

theorem phs_joinFrags (s : String) (xs : List (List Frag)) :
    phs (joinFrags [Frag.lit s] xs) = (xs.map phs).join := by
  induction xs with
  | nil => rfl
  | cons c cs ih =>
    cases cs with
    | nil => simp [joinFrags]
    | cons d ds => simp [joinFrags] at ih ⊢; simp [ih]

theorem join_map_singleton (l : List Nat) :
    (l.map (fun i => [i])).join = l := by
  induction l with
  | nil => rfl
  | cons a t ih => simp [ih]

/-- Count of an element in `List.range' s n` (step 1). -/
theorem count_range' (i : Nat) : ∀ (s n : Nat),
    (List.range' s n).count i = if s ≤ i ∧ i < s + n then 1 else 0
  | s, 0 => by
    have h : ¬ (s ≤ i ∧ i < s) := by omega
    simp [h]
  | s, n+1 => by
    rw [List.range'_succ, List.count_cons, count_range' i (s+1) n]
    split_ifs <;> simp_all <;> omega

/-! ## The WHERE-building invariant -/

/-- A clause starts with a non-empty literal (so it renders non-empty). -/
def headNonemptyLit : List Frag → Prop
  | .lit s :: _ => s ≠ ""
  | _ => False

/-- Invariant of the `(where_clauses, params, param_counter)` triple: the
counter is one past the number of parameters, and the `k`-th clause holds
exactly the placeholder `k+1`. -/
def WInv (st : WhereState) : Prop :=
  st.param_counter = st.params.length + 1 ∧
  st.where_clauses.map phs = (List.range' 1 st.params.length).map (fun i => [i]) ∧
  st.where_clauses.length = st.params.length ∧
  ∀ c ∈ st.where_clauses, headNonemptyLit c

theorem WInv_whereStep (cond : Bool) (mkc : Nat → List Frag) (v : Val)
    (st : WhereState) (h : WInv st)
    (hc : phs (mkc st.param_counter) = [st.param_counter])
    (hh : headNonemptyLit (mkc st.param_counter)) :
    WInv (whereStep cond mkc v st) := by
  obtain ⟨h1, h2, h3, h4⟩ := h
  cases cond with
  | false => exact ⟨h1, h2, h3, h4⟩
  | true =>
    refine ⟨by simp [whereStep, h1], ?_, by simp [whereStep, h3], ?_⟩
    · rw [h1] at hc
      simp only [whereStep, if_true, List.map_append, h2, List.map_cons,
        List.map_nil, hc, h1, List.length_append, List.length_singleton]
      rw [List.range'_1_concat]
      simp [Nat.add_comm]
    · intro c hcmem
      simp only [whereStep, if_true, List.mem_append, List.mem_singleton] at hcmem
      rcases hcmem with hcl | rfl
      · exact h4 c hcl
      · exact hh

theorem WInv_whereState (r : FilterRequest) : WInv (whereState r) := by
  unfold whereState
  refine WInv_whereStep _ _ _ _ (WInv_whereStep _ _ _ _ (WInv_whereStep _ _ _ _
    (WInv_whereStep _ _ _ _ (WInv_whereStep _ _ _ _ ?_ rfl ?_) rfl ?_) rfl ?_)
    rfl ?_) rfl ?_
  · exact ⟨rfl, rfl, rfl, by intro c h; simp at h⟩
  all_goals simp [headNonemptyLit]

theorem freq_inf_pos_eq (r : FilterRequest) :
    freq_inf_pos r = whereCount r + 1 := (WInv_whereState r).1

theorem phs_final_where (r : FilterRequest) :
    phs (final_where_frags r) = List.range' 1 (whereCount r) := by
  rw [final_where_frags, phs_joinFrags, (WInv_whereState r).2.1,
    join_map_singleton]
  rfl

/-- The book-filter fragment references exactly the consecutive placeholder
positions assigned to the truthy book filters. -/
theorem phs_books (r : FilterRequest) :
    phs (books_filter_inner_sql r) = List.range' (pcAfterFreq r) (bookCount r) := by
  simp only [books_filter_inner_sql, book_filter_conditions, book_names_pos,
    categories_pos, periods_pos, styles_pos, pcAfterNames, pcAfterCategories,
    pcAfterPeriods, bookCount]
  cases h1 : pyTruthyList r.book_names <;>
    cases h2 : pyTruthyList r.book_categories <;>
      cases h3 : pyTruthyList r.book_periods <;>
        cases h4 : pyTruthyList r.book_styles <;>
          simp [joinFrags, List.range'_succ]

theorem phs_example_fetch (r : FilterRequest) :
    phs (example_fetch_sql r) =
      phs (books_filter_inner_sql r) ++
      [examples_limit_pos r, examples_offset_pos r] := by
  simp [example_fetch_sql]

theorem phs_total (r : FilterRequest) :
    phs (total_matching_examples_count_sql r) = phs (books_filter_inner_sql r) := by
  simp [total_matching_examples_count_sql]

/-- Placeholders of the full query, in textual order: example subquery
(book filter + example pagination), count subquery (book filter again), WHERE
predicates, frequency bounds, result pagination. -/
theorem phs_query (r : FilterRequest) :
    phs (query_template r) =
      phs (books_filter_inner_sql r) ++
      [examples_limit_pos r, examples_offset_pos r] ++
      phs (books_filter_inner_sql r) ++
      List.range' 1 (whereCount r) ++
      [freq_inf_pos r] ++
      (if r.freq_sup.isSome then [freq_inf_pos r + 1] else []) ++
      [results_limit_pos r, results_offset_pos r] := by
  cases hs : r.freq_sup.isSome <;>
    simp [query_template, phs_example_fetch, phs_total, phs_final_where, hs,
      freq_sup_pos]

theorem params_length (r : FilterRequest) :
    (paramsList r).length =
      whereCount r + 1 + (r.freq_sup.isSome).toNat + bookCount r + 4 := by
  simp only [paramsList, paramsTail, whereCount, bookCount, List.length_append]
  cases hs : r.freq_sup <;>
    cases h1 : pyTruthyList r.book_names <;>
      cases h2 : pyTruthyList r.book_categories <;>
        cases h3 : pyTruthyList r.book_periods <;>
          cases h4 : pyTruthyList r.book_styles <;>
            simp

theorem pcAfterFreq_eq (r : FilterRequest) :
    pcAfterFreq r = whereCount r + 2 + (r.freq_sup.isSome).toNat := by
  rw [pcAfterFreq, freq_inf_pos_eq]

theorem pcAfterStyles_eq (r : FilterRequest) :
    pcAfterStyles r = pcAfterFreq r + bookCount r := by
  rw [pcAfterStyles, pcAfterPeriods, pcAfterCategories, pcAfterNames, bookCount]
  omega

/-! ## Claim C1 -/

def c1req : FilterRequest := { head_text := some "x", book_names := some ["a"] }

set_option maxRecDepth 8000 in
/-- Claim C1, counterexample: for the valid request with `head_text="x"` and
`book_names=["a"]`, the book-filter placeholder `$3` appears twice in the
generated query text (once in each example subquery), so it is false that
every placeholder index in 1..N appears in the query text exactly once. -/
theorem c1_counterexample :
    ¬ ((paramsList c1req).length =
         (scanPlaceholders (renderFrags (query_template c1req))).dedup.length ∧
       ∀ i, 1 ≤ i → i ≤ (paramsList c1req).length →
         (scanPlaceholders (renderFrags (query_template c1req))).count i = 1) := by
  intro hcl
  have h3 := hcl.2 3 (by norm_num) (by decide)
  have hscan : scanPlaceholders (renderFrags (query_template c1req)) =
      [3, 4, 5, 3, 1, 2, 6, 7] := rfl
  rw [hscan] at h3
  simp at h3

/-- Claim C1 (amended): for every valid Filter Request, the number of bound
parameters equals the number of distinct placeholder indices referenced, and
the referenced indices are exactly 1..N; every index appears exactly once,
except the book-filter placeholders, which appear exactly twice (once per
example subquery). -/
theorem c1_placeholders_amended (r : FilterRequest) (h : validRequest r) :
    (∀ i, i ∈ phs (query_template r) ↔ 1 ≤ i ∧ i ≤ (paramsList r).length) ∧
    (∀ i, 1 ≤ i → i ≤ (paramsList r).length →
      (phs (query_template r)).count i =
        if i ∈ phs (books_filter_inner_sql r) then 2 else 1) := by
  have hq := phs_query r
  have hb := phs_books r
  have hN := params_length r
  have hpcf := pcAfterFreq_eq r
  have hps := pcAfterStyles_eq r
  have hfi := freq_inf_pos_eq r
  constructor
  · intro i
    rw [hq, hb]
    cases hs : r.freq_sup.isSome <;>
      rw [hs] at hN hpcf <;>
      simp only [Bool.toNat_true, Bool.toNat_false] at hN hpcf <;>
      simp [hs, List.mem_append, List.mem_range'_1, examples_limit_pos,
        examples_offset_pos, results_limit_pos, results_offset_pos] <;>
      omega
  · intro i hi1 hi2
    rw [hq, hb]
    cases hs : r.freq_sup.isSome <;>
      rw [hs] at hN hpcf <;>
      simp only [Bool.toNat_true, Bool.toNat_false] at hN hpcf <;>
      simp [hs, List.count_append, count_range', List.count_cons,
        List.count_nil, List.mem_range'_1, beq_iff_eq, examples_limit_pos,
        examples_offset_pos, results_limit_pos, results_offset_pos] <;>
      split_ifs <;> omega

/-- Witness for the amended C1 at the concrete request of the counterexample:
index 5 (an example-pagination position) is referenced, and index 3 (the book
placeholder) has multiplicity 2. -/
theorem c1_placeholders_amended_witness :
    validRequest c1req ∧
    ((5 ∈ phs (query_template c1req)) ↔ 1 ≤ 5 ∧ 5 ≤ (paramsList c1req).length) ∧
    (phs (query_template c1req)).count 3 =
      (if 3 ∈ phs (books_filter_inner_sql c1req) then 2 else 1) :=
  ⟨by decide, (c1_placeholders_amended c1req (by decide)).1 5,
   (c1_placeholders_amended c1req (by decide)).2 3 (by norm_num) (by decide)⟩

/-! ## Claim C2: indexed lookups into the argument list -/

theorem getElem?_append_len_add {α : Type} (A B : List α) (k : Nat) :
    (A ++ B)[A.length + k]? = B[k]? := by
  rw [List.getElem?_append_right (by omega)]
  congr 1
  omega

theorem paramsList_at_freq_inf (r : FilterRequest) :
    (paramsList r)[freq_inf_pos r - 1]? = some (Val.int r.freq_inf) := by
  have hpc := (WInv_whereState r).1
  have hidx : freq_inf_pos r - 1 = (whereState r).params.length + 0 := by
    rw [freq_inf_pos, hpc]
    omega
  rw [paramsList, hidx, getElem?_append_len_add]
  simp [paramsTail]

theorem paramsList_at_freq_sup (r : FilterRequest) (v : Int)
    (hv : r.freq_sup = some v) :
    (paramsList r)[freq_inf_pos r]? = some (Val.int v) := by
  have hpc := (WInv_whereState r).1
  have hidx : freq_inf_pos r = (whereState r).params.length + 1 := by
    rw [freq_inf_pos, hpc]
  rw [paramsList, hidx, getElem?_append_len_add]
  simp [paramsTail, hv]

theorem paramsList_at_names (r : FilterRequest) (p : Nat)
    (hp : book_names_pos r = some p) :
    (paramsList r)[p - 1]? = some (Val.strList (r.book_names.getD [])) := by
  have hpc := (WInv_whereState r).1
  rw [book_names_pos] at hp
  by_cases hn : pyTruthyList r.book_names = true
  · rw [if_pos hn] at hp
    injection hp with hp
    subst hp
    cases hsup : r.freq_sup <;>
      simp [paramsList, paramsTail, pcAfterFreq, freq_inf_pos, hpc, hsup, hn,
        Nat.add_assoc, Nat.add_sub_assoc, getElem?_append_len_add,
        List.singleton_append]
  · rw [if_neg hn] at hp
    cases hp

theorem paramsList_at_categories (r : FilterRequest) (p : Nat)
    (hp : categories_pos r = some p) :
    (paramsList r)[p - 1]? = some (Val.strList (r.book_categories.getD [])) := by
  have hpc := (WInv_whereState r).1
  rw [categories_pos] at hp
  by_cases hc : pyTruthyList r.book_categories = true
  · rw [if_pos hc] at hp
    injection hp with hp
    subst hp
    cases hsup : r.freq_sup <;>
      cases h1 : pyTruthyList r.book_names <;>
        simp [paramsList, paramsTail, pcAfterNames, pcAfterFreq, freq_inf_pos,
          hpc, hsup, hc, h1, Nat.add_assoc, Nat.add_sub_assoc,
          getElem?_append_len_add, List.singleton_append]
  · rw [if_neg hc] at hp
    cases hp

theorem paramsList_at_periods (r : FilterRequest) (p : Nat)
    (hp : periods_pos r = some p) :
    (paramsList r)[p - 1]? = some (Val.strList (r.book_periods.getD [])) := by
  have hpc := (WInv_whereState r).1
  rw [periods_pos] at hp
  by_cases hper : pyTruthyList r.book_periods = true
  · rw [if_pos hper] at hp
    injection hp with hp
    subst hp
    cases hsup : r.freq_sup <;>
      cases h1 : pyTruthyList r.book_names <;>
        cases h2 : pyTruthyList r.book_categories <;>
          (simp only [paramsList, paramsTail, pcAfterCategories, pcAfterNames,
            pcAfterFreq, freq_inf_pos, hpc, hsup, hper, h1, h2,
            Option.isSome_none, Option.isSome_some, Bool.toNat_true,
            Bool.toNat_false, if_true, if_false, Nat.add_zero];
           rw [List.getElem?_append_right (by omega)];
           simp [Nat.add_assoc, Nat.add_sub_assoc, Nat.add_sub_cancel_left,
             List.singleton_append])
  · rw [if_neg hper] at hp
    cases hp

theorem paramsList_at_styles (r : FilterRequest) (p : Nat)
    (hp : styles_pos r = some p) :
    (paramsList r)[p - 1]? = some (Val.strList (r.book_styles.getD [])) := by
  have hpc := (WInv_whereState r).1
  rw [styles_pos] at hp
  by_cases hst : pyTruthyList r.book_styles = true
  · rw [if_pos hst] at hp
    injection hp with hp
    subst hp
    cases hsup : r.freq_sup <;>
      cases h1 : pyTruthyList r.book_names <;>
        cases h2 : pyTruthyList r.book_categories <;>
          cases h3 : pyTruthyList r.book_periods <;>
            (simp only [paramsList, paramsTail, pcAfterPeriods,
              pcAfterCategories, pcAfterNames, pcAfterFreq, freq_inf_pos, hpc,
              hsup, hst, h1, h2, h3, Option.isSome_none, Option.isSome_some,
              Bool.toNat_true, Bool.toNat_false, if_true, if_false,
              Nat.add_zero];
             rw [List.getElem?_append_right (by omega)];
             simp [Nat.add_assoc, Nat.add_sub_assoc, Nat.add_sub_cancel_left,
               List.singleton_append])
  · rw [if_neg hst] at hp
    cases hp

theorem paramsList_at_pagination (r : FilterRequest) :
    (paramsList r)[examples_limit_pos r - 1]? = some (Val.int r.examples_limit) ∧
    (paramsList r)[examples_offset_pos r - 1]? = some (Val.int r.examples_offset) ∧
    (paramsList r)[results_limit_pos r - 1]? = some (Val.int r.results_limit) ∧
    (paramsList r)[results_offset_pos r - 1]? = some (Val.int r.results_offset) := by
  have hpc := (WInv_whereState r).1
  refine ⟨?_, ?_, ?_, ?_⟩ <;>
    cases hsup : r.freq_sup <;>
      cases h1 : pyTruthyList r.book_names <;>
        cases h2 : pyTruthyList r.book_categories <;>
          cases h3 : pyTruthyList r.book_periods <;>
            cases h4 : pyTruthyList r.book_styles <;>
              (simp only [paramsList, paramsTail, examples_limit_pos,
                examples_offset_pos, results_limit_pos, results_offset_pos,
                pcAfterStyles, pcAfterPeriods, pcAfterCategories, pcAfterNames,
                pcAfterFreq, freq_inf_pos, hpc, hsup, h1, h2, h3, h4,
                Option.isSome_none, Option.isSome_some, Bool.toNat_true,
                Bool.toNat_false, if_true, if_false, Nat.add_zero];
               rw [List.getElem?_append_right (by omega)];
               simp [Nat.add_assoc, Nat.add_sub_assoc, Nat.add_sub_cancel_left,
                 List.singleton_append])

theorem c2_where_lookup (r : FilterRequest) (j : Nat) (hj : j < whereCount r) :
    ((whereState r).where_clauses.map phs)[j]? = some [j + 1] ∧
    (paramsList r)[j]? = (whereState r).params[j]? := by
  have hj' : j < (whereState r).params.length := hj
  constructor
  · rw [(WInv_whereState r).2.1, List.getElem?_map,
      List.getElem?_range' 1 1 hj']
    simp [Nat.add_comm]
  · rw [paramsList, List.getElem?_append_left hj']

/-- Claim C2: placeholders are numbered in the fixed order (WHERE predicates
in appended order, minimum frequency, maximum frequency if supplied, book
filters, example pagination, result pagination), and the argument list holds
the corresponding values in exactly that order: the value found at index
`i - 1` of the argument list is the value the tracked position `$i` denotes. -/
theorem c2_parameter_order (r : FilterRequest) (h : validRequest r) :
    paramsList r = (whereState r).params ++ paramsTail r ∧
    (∀ j, j < whereCount r →
      ((whereState r).where_clauses.map phs)[j]? = some [j + 1] ∧
      (paramsList r)[j]? = (whereState r).params[j]?) ∧
    (paramsList r)[freq_inf_pos r - 1]? = some (Val.int r.freq_inf) ∧
    (∀ v, r.freq_sup = some v →
      freq_sup_pos r = some (freq_inf_pos r + 1) ∧
      (paramsList r)[(freq_inf_pos r + 1) - 1]? = some (Val.int v)) ∧
    (∀ p, book_names_pos r = some p →
      (paramsList r)[p - 1]? = some (Val.strList (r.book_names.getD []))) ∧
    (∀ p, categories_pos r = some p →
      (paramsList r)[p - 1]? = some (Val.strList (r.book_categories.getD []))) ∧
    (∀ p, periods_pos r = some p →
      (paramsList r)[p - 1]? = some (Val.strList (r.book_periods.getD []))) ∧
    (∀ p, styles_pos r = some p →
      (paramsList r)[p - 1]? = some (Val.strList (r.book_styles.getD []))) ∧
    (paramsList r)[examples_limit_pos r - 1]? = some (Val.int r.examples_limit) ∧
    (paramsList r)[examples_offset_pos r - 1]? = some (Val.int r.examples_offset) ∧
    (paramsList r)[results_limit_pos r - 1]? = some (Val.int r.results_limit) ∧
    (paramsList r)[results_offset_pos r - 1]? = some (Val.int r.results_offset) := by
  obtain ⟨hel, heo, hrl, hro⟩ := paramsList_at_pagination r
  refine ⟨rfl, c2_where_lookup r, paramsList_at_freq_inf r, ?_,
    paramsList_at_names r, paramsList_at_categories r, paramsList_at_periods r,
    paramsList_at_styles r, hel, heo, hrl, hro⟩
  intro v hv
  refine ⟨by simp [freq_sup_pos, hv], ?_⟩
  have := paramsList_at_freq_sup r v hv
  simpa using this

def c2req : FilterRequest :=
  { head_text := some "x", freq_sup := some 9, book_categories := some ["poetry"] }

/-- Witness for C2 at a concrete request with a maximum frequency and a
book-category filter: the bound values at the tracked positions are the
request's values. -/
theorem c2_parameter_order_witness :
    validRequest c2req ∧
    (paramsList c2req)[freq_inf_pos c2req - 1]? = some (Val.int (1 : Int)) ∧
    (paramsList c2req)[(freq_inf_pos c2req + 1) - 1]? = some (Val.int (9 : Int)) ∧
    (paramsList c2req)[4 - 1]? = some (Val.strList ["poetry"]) :=
  ⟨by decide, (c2_parameter_order c2req (by decide)).2.2.1,
   ((c2_parameter_order c2req (by decide)).2.2.2.1 9 rfl).2,
   (c2_parameter_order c2req (by decide)).2.2.2.2.2.1 4 rfl⟩

/-! ## Claim C3: the book-filter fragment is shared by both subqueries -/

theorem renderFrags_append (a b : List Frag) :
    renderFrags (a ++ b) = renderFrags a ++ renderFrags b := by
  induction a with
  | nil => simp [renderFrags]
  | cons f fs ih => simp [renderFrags, ih, String.append_assoc]

theorem book_flags_of_count_zero (r : FilterRequest) (h : bookCount r = 0) :
    pyTruthyList r.book_names = false ∧ pyTruthyList r.book_categories = false ∧
    pyTruthyList r.book_periods = false ∧ pyTruthyList r.book_styles = false := by
  rw [bookCount] at h
  cases h1 : pyTruthyList r.book_names <;>
    cases h2 : pyTruthyList r.book_categories <;>
      cases h3 : pyTruthyList r.book_periods <;>
        cases h4 : pyTruthyList r.book_styles <;>
          simp_all

/-- Claim C3: the book-filter fragment embedded in the limited-examples
subquery and in the example-count subquery is the same fragment (hence
character-for-character identical text referencing the same placeholder
indices, which C2 ties to the same bound values); when no book filter is
supplied the fragment is empty and neither subquery references any
book placeholder. -/
theorem c3_book_fragment_shared (r : FilterRequest) (h : validRequest r) :
    (∃ A B, example_fetch_sql r = A ++ books_filter_inner_sql r ++ B) ∧
    (∃ C D, total_matching_examples_count_sql r =
      C ++ books_filter_inner_sql r ++ D) ∧
    (∃ sA sB sC sD,
      renderFrags (example_fetch_sql r) =
        sA ++ renderFrags (books_filter_inner_sql r) ++ sB ∧
      renderFrags (total_matching_examples_count_sql r) =
        sC ++ renderFrags (books_filter_inner_sql r) ++ sD) ∧
    phs (example_fetch_sql r) =
      phs (books_filter_inner_sql r) ++
      [examples_limit_pos r, examples_offset_pos r] ∧
    phs (total_matching_examples_count_sql r) = phs (books_filter_inner_sql r) ∧
    (bookCount r = 0 →
      books_filter_inner_sql r = [Frag.lit ""] ∧
      renderFrags (books_filter_inner_sql r) = "" ∧
      phs (example_fetch_sql r) = [examples_limit_pos r, examples_offset_pos r] ∧
      phs (total_matching_examples_count_sql r) = []) := by
  refine ⟨⟨[Frag.lit efPre], _, rfl⟩, ⟨[Frag.lit tcPre], _, rfl⟩,
    ⟨renderFrags [Frag.lit efPre],
     renderFrags [Frag.lit efMid, .ph (examples_limit_pos r), .lit " OFFSET ",
       .ph (examples_offset_pos r), .lit efPost],
     renderFrags [Frag.lit tcPre], renderFrags [Frag.lit tcPost],
      ?_, ?_⟩, phs_example_fetch r, phs_total r, ?_⟩
  · rw [example_fetch_sql, renderFrags_append, renderFrags_append]
  · rw [total_matching_examples_count_sql, renderFrags_append, renderFrags_append]
  · intro h0
    obtain ⟨f1, f2, f3, f4⟩ := book_flags_of_count_zero r h0
    have hbfi : books_filter_inner_sql r = [Frag.lit ""] := by
      simp [books_filter_inner_sql, book_filter_conditions, f1, f2, f3, f4]
    exact ⟨hbfi, by rw [hbfi]; rfl,
      by rw [phs_example_fetch r, hbfi]; rfl,
      by rw [phs_total r, hbfi]; rfl⟩

def c3req : FilterRequest := { dpdt_text := some "y" }

/-- Witness for C3 at a request with no book filters: the fragment is the
empty literal and the example subqueries reference only the example
pagination placeholders. -/
theorem c3_book_fragment_shared_witness :
    validRequest c3req ∧
    (books_filter_inner_sql c3req = [Frag.lit ""] ∧
     renderFrags (books_filter_inner_sql c3req) = "" ∧
     phs (example_fetch_sql c3req) =
       [examples_limit_pos c3req, examples_offset_pos c3req] ∧
     phs (total_matching_examples_count_sql c3req) = []) :=
  ⟨by decide, (c3_book_fragment_shared c3req (by decide)).2.2.2.2.2 (by decide)⟩

/-! ## Claim C4: predicate assembly -/

/-- The expected WHERE clauses: one predicate per truthy filter, in source
order, with consecutively assigned placeholders; `LIKE` predicates for the
scalar text filters and `= ANY(...)` membership predicates for set filters. -/
def wcExpected (r : FilterRequest) : List (List Frag) :=
  let t1 := (pyTruthyStr r.head_text).toNat
  let t2 := (pyTruthyStr r.dpdt_text).toNat
  let t3 := (pyTruthyList r.head_pos).toNat
  let t4 := (pyTruthyList r.dpdt_pos).toNat
  (if pyTruthyStr r.head_text then
    [[Frag.lit "head_text LIKE ", .ph 1]] else []) ++
  (if pyTruthyStr r.dpdt_text then
    [[Frag.lit "dependent_text LIKE ", .ph (1 + t1)]] else []) ++
  (if pyTruthyList r.head_pos then
    [[Frag.lit "head_pos = ANY(", .ph (1 + t1 + t2), .lit "::text[])"]]
   else []) ++
  (if pyTruthyList r.dpdt_pos then
    [[Frag.lit "dependent_pos = ANY(", .ph (1 + t1 + t2 + t3), .lit "::text[])"]]
   else []) ++
  (if pyTruthyList r.dep_type then
    [[Frag.lit "dependency_type = ANY(", .ph (1 + t1 + t2 + t3 + t4),
      .lit "::text[])"]]
   else [])

/-- The expected WHERE parameters: `%value%` for each present scalar text
filter, the set itself for each present set filter; absent filters contribute
nothing. -/
def wpExpected (r : FilterRequest) : List Val :=
  (if pyTruthyStr r.head_text then
    [Val.str ("%" ++ r.head_text.getD "" ++ "%")] else []) ++
  (if pyTruthyStr r.dpdt_text then
    [Val.str ("%" ++ r.dpdt_text.getD "" ++ "%")] else []) ++
  (if pyTruthyList r.head_pos then [Val.strList (r.head_pos.getD [])] else []) ++
  (if pyTruthyList r.dpdt_pos then [Val.strList (r.dpdt_pos.getD [])] else []) ++
  (if pyTruthyList r.dep_type then [Val.strList (r.dep_type.getD [])] else [])

theorem whereState_explicit (r : FilterRequest) :
    (whereState r).where_clauses = wcExpected r ∧
    (whereState r).params = wpExpected r := by
  simp only [whereState, whereStep, wcExpected, wpExpected]
  cases h1 : pyTruthyStr r.head_text <;>
    cases h2 : pyTruthyStr r.dpdt_text <;>
      cases h3 : pyTruthyList r.head_pos <;>
        cases h4 : pyTruthyList r.dpdt_pos <;>
          cases h5 : pyTruthyList r.dep_type <;>
            simp

/-- The conditional maximum-frequency segment of the query template. -/
def freqSupFrags (r : FilterRequest) : List Frag :=
  if r.freq_sup.isSome then
    [Frag.lit qtFreqSupLit, .ph ((freq_sup_pos r).getD 0)]
  else [Frag.lit ""]

/-- Claim C4: each present scalar text filter contributes one `LIKE`
predicate with pattern `%value%`, each present set filter one membership
predicate, in order, joined by AND; absent filters contribute no predicate
and no parameter.  The minimum-frequency predicate is always present in the
template, and the maximum-frequency segment renders to text iff `freq_sup`
is supplied (in which case its placeholder is bound to `freq_sup`). -/
theorem c4_predicate_assembly (r : FilterRequest) (h : validRequest r) :
    (whereState r).where_clauses = wcExpected r ∧
    (whereState r).params = wpExpected r ∧
    final_where_frags r = joinFrags [Frag.lit " AND "] (whereState r).where_clauses ∧
    (∃ A B, query_template r =
      A ++ [Frag.lit qtFreqInf, Frag.ph (freq_inf_pos r), Frag.lit qtAfterFreqInf]
        ++ freqSupFrags r ++ B) ∧
    (r.freq_sup = none →
      freq_sup_pos r = none ∧ renderFrags (freqSupFrags r) = "") ∧
    (∀ v, r.freq_sup = some v →
      freq_sup_pos r = some (freq_inf_pos r + 1) ∧
      renderFrags (freqSupFrags r) =
        qtFreqSupLit ++ ("$" ++ toString (freq_inf_pos r + 1)) ∧
      (paramsList r)[(freq_inf_pos r + 1) - 1]? = some (Val.int v)) := by
  refine ⟨(whereState_explicit r).1, (whereState_explicit r).2, rfl,
    ⟨[Frag.lit qtHead] ++ example_fetch_sql r ++ [Frag.lit qtAfterExamples] ++
      total_matching_examples_count_sql r ++ [Frag.lit qtAfterCount] ++
      final_where_frags r,
     [Frag.lit qtOrderLimit, .ph (results_limit_pos r), .lit " OFFSET ",
      .ph (results_offset_pos r), .lit qtTail], ?_⟩, ?_, ?_⟩
  · simp [query_template, freqSupFrags, List.append_assoc]
  · intro h0
    constructor
    · simp [freq_sup_pos, h0]
    · simp [freqSupFrags, h0, renderFrags, renderFrag]
  · intro v hv
    refine ⟨by simp [freq_sup_pos, hv], ?_, ?_⟩
    · simp [freqSupFrags, freq_sup_pos, hv, renderFrags, renderFrag]
    · have := paramsList_at_freq_sup r v hv
      simpa using this

def c4req : FilterRequest :=
  { head_text := some "x", head_pos := some ["NOUN"], freq_sup := some 7 }

/-- Witness for C4 at a request with head text, head POS and a maximum
frequency: two predicates, `%x%` pattern, and the max-frequency segment. -/
theorem c4_predicate_assembly_witness :
    validRequest c4req ∧
    (whereState c4req).where_clauses = wcExpected c4req ∧
    (freq_sup_pos c4req = some (freq_inf_pos c4req + 1) ∧
     renderFrags (freqSupFrags c4req) =
       qtFreqSupLit ++ ("$" ++ toString (freq_inf_pos c4req + 1)) ∧
     (paramsList c4req)[(freq_inf_pos c4req + 1) - 1]? = some (Val.int (7 : Int))) :=
  ⟨by decide, (c4_predicate_assembly c4req (by decide)).1,
   (c4_predicate_assembly c4req (by decide)).2.2.2.2.2 7 rfl⟩

/-! ## Claim C5: ordering policy -/

/-- The text between `ORDER BY` and `LIMIT` in the query template. -/
def orderKeySegment : String := "\n                    example_count DESC\n                "

/-- Claim C5: the generated query ends with
`ORDER BY example_count DESC LIMIT $rl OFFSET $ro;`: the outer ordering key
is the matching-example count, descending; it is not the raw `frequency`
column, and there is no secondary tie-break key (no comma-separated second
key between ORDER BY and LIMIT). -/
theorem c5_ordering_policy (r : FilterRequest) (h : validRequest r) :
    (∃ pre, query_template r =
      pre ++ [Frag.lit qtOrderLimit, .ph (results_limit_pos r),
        .lit " OFFSET ", .ph (results_offset_pos r), .lit qtTail]) ∧
    qtOrderLimit = "\n                " ++ "ORDER BY" ++ orderKeySegment ++ "LIMIT " ∧
    containsSubstr orderKeySegment "example_count DESC" = true ∧
    containsSubstr orderKeySegment "frequency" = false ∧
    orderKeySegment.data.count ',' = 0 := by
  refine ⟨⟨_, rfl⟩, by decide, by decide, by decide, by decide⟩

def c5req : FilterRequest := { head_text := some "x" }

/-- Witness for C5 at a concrete request. -/
theorem c5_ordering_policy_witness :
    validRequest c5req ∧
    (∃ pre, query_template c5req =
      pre ++ [Frag.lit qtOrderLimit, .ph (results_limit_pos c5req),
        .lit " OFFSET ", .ph (results_offset_pos c5req), .lit qtTail]) :=
  ⟨by decide, (c5_ordering_policy c5req (by decide)).1⟩

/-! ## Claim C6: the result shaper -/

theorem lookup_popField (k : String) (row : Row) :
    List.lookup k (popField k row) = none := by
  induction row with
  | nil => rfl
  | cons p t ih =>
    obtain ⟨k0, v0⟩ := p
    by_cases hp : k0 = k
    · have hstep : popField k ((k0, v0) :: t) = popField k t := by
        simp [popField, List.filter_cons, hp]
      rw [hstep]
      exact ih
    · have hstep : popField k ((k0, v0) :: t) = (k0, v0) :: popField k t := by
        simp [popField, List.filter_cons, hp]
      rw [hstep, List.lookup_cons]
      have hne : (k == k0) = false := by
        simp
        exact fun hh => hp hh.symm
      rw [hne]
      exact ih

/-- Claim C6: the Result Shaper reads `total_collocations_count` from the
first row when one exists and defaults to zero on an empty row set, strips
that field from every emitted row, preserves the row order (the output is the
elementwise image of the input), and returns exactly the scalar total plus
the stripped rows. -/
theorem c6_result_shaper (rows : List Row) :
    (rows = [] → resultShape rows = some (Val.int 0, [])) ∧
    (∀ first rest total, rows = first :: rest →
      List.lookup tccKey first = some total →
      resultShape rows = some (total, rows.map (popField tccKey))) ∧
    (∀ t out, resultShape rows = some (t, out) →
      out = rows.map (popField tccKey) ∧
      out.length = rows.length ∧
      (∀ j : Nat, out[j]? = (rows[j]?).map (popField tccKey)) ∧
      (∀ row ∈ out, List.lookup tccKey row = none)) := by
  refine ⟨?_, ?_, ?_⟩
  · intro h
    subst h
    rfl
  · intro first rest total hrows hlk
    subst hrows
    simp [resultShape, hlk]
  · intro t out hshape
    cases rows with
    | nil =>
      simp only [resultShape, Option.some.injEq, Prod.mk.injEq] at hshape
      obtain ⟨rfl, rfl⟩ := hshape
      refine ⟨rfl, rfl, fun j => rfl, ?_⟩
      intro row hrow
      cases hrow
    | cons first rest =>
      rw [resultShape] at hshape
      cases hlk : List.lookup tccKey first with
      | none =>
        rw [hlk] at hshape
        cases hshape
      | some total =>
        rw [hlk] at hshape
        simp only [Option.some.injEq, Prod.mk.injEq] at hshape
        obtain ⟨rfl, rfl⟩ := hshape
        refine ⟨rfl, by simp, ?_, ?_⟩
        · intro j
          cases j <;> simp [List.getElem?_map]
        · intro row hrow
          rw [List.mem_map] at hrow
          obtain ⟨r0, _, rfl⟩ := hrow
          exact lookup_popField _ _

def c6rows : List Row := [[(tccKey, Val.int 3), ("head_text", Val.str "a")]]

/-- Witness for C6 on a one-row row set carrying the side-channel count 3.  -/
theorem c6_result_shaper_witness :
    resultShape c6rows = some (Val.int 3, c6rows.map (popField tccKey)) :=
  (c6_result_shaper c6rows).2.1 [(tccKey, Val.int 3), ("head_text", Val.str "a")]
    [] (Val.int 3) rfl (by decide)

/-! ## Claim C7: validation rejects before touching the store -/

/-- Claim C7: a request with both `head_text` and `dpdt_text` absent is
rejected with HTTP 400 and the store is untouched: no query is executed,
nothing is logged, and the outcome is the same whatever the store would have
answered (`db` is universally quantified). -/
theorem c7_validation_rejects (r : FilterRequest) (h1 : r.head_text = none)
    (h2 : r.dpdt_text = none) (db : DbOutcome) :
    search_dependencies r db =
      (HttpOutcome.error 400 badRequestMsg, ⟨[], []⟩) := by
  simp [search_dependencies, pyTruthyStr, h1, h2]

/-- Witness for C7: the all-defaults request is rejected with 400 and an
empty trace. -/
theorem c7_validation_rejects_witness :
    search_dependencies {} (DbOutcome.rows []) =
      (HttpOutcome.error 400 badRequestMsg, ⟨[], []⟩) :=
  c7_validation_rejects {} rfl rfl (DbOutcome.rows [])

/-! ## Claim C8: the WHERE clause is never degenerate -/

theorem append_ne_empty_left {s t : String} (h : s ≠ "") : s ++ t ≠ "" := by
  intro hc
  apply h
  have hdata := congrArg String.data hc
  rw [String.data_append] at hdata
  exact String.ext (List.append_eq_nil.mp hdata).1

theorem render_headNonempty (c : List Frag) (h : headNonemptyLit c) :
    renderFrags c ≠ "" := by
  cases c with
  | nil => cases h
  | cons f fs =>
    cases f with
    | lit s =>
      have hs : s ≠ "" := h
      show renderFrag (Frag.lit s) ++ renderFrags fs ≠ ""
      exact append_ne_empty_left hs
    | ph n => cases h

theorem valid_text_flag (r : FilterRequest) (h : validRequest r) :
    pyTruthyStr r.head_text = true ∨ pyTruthyStr r.dpdt_text = true := by
  have hb : validRequestB r = true := h
  simp only [validRequestB, Bool.and_eq_true] at hb
  exact Bool.or_eq_true_iff.mp hb.1.1.1.1.1.1

theorem whereCount_pos (r : FilterRequest) (h : validRequest r) :
    1 ≤ whereCount r := by
  rcases valid_text_flag r h with ht | ht <;>
    rw [whereCount, (whereState_explicit r).2] <;>
    simp [wpExpected, ht, List.length_append] <;>
    split_ifs <;> omega

/-- Claim C8: for every valid Filter Request the WHERE-predicate list is
non-empty, the final WHERE text is their AND-join, and it renders to
non-empty text, so the query never degenerates to a dangling `WHERE AND`. -/
theorem c8_where_nonempty (r : FilterRequest) (h : validRequest r) :
    (whereState r).where_clauses ≠ [] ∧
    1 ≤ whereCount r ∧
    final_where_frags r =
      joinFrags [Frag.lit " AND "] (whereState r).where_clauses ∧
    renderFrags (final_where_frags r) ≠ "" := by
  have hcnt := whereCount_pos r h
  have hlen : (whereState r).where_clauses.length = whereCount r :=
    (WInv_whereState r).2.2.1
  have hne : (whereState r).where_clauses ≠ [] := by
    apply List.ne_nil_of_length_pos
    omega
  refine ⟨hne, hcnt, rfl, ?_⟩
  obtain ⟨c, cs, hcons⟩ := List.exists_cons_of_ne_nil hne
  have hhd : headNonemptyLit c := by
    apply (WInv_whereState r).2.2.2
    rw [hcons]
    exact List.mem_cons_self c cs
  rw [final_where_frags, hcons]
  cases cs with
  | nil => exact render_headNonempty c hhd
  | cons d ds =>
    show renderFrags ((c ++ [Frag.lit " AND "]) ++
      joinFrags [Frag.lit " AND "] (d :: ds)) ≠ ""
    rw [renderFrags_append, renderFrags_append]
    exact append_ne_empty_left (append_ne_empty_left (render_headNonempty c hhd))

def c8req : FilterRequest := { dpdt_text := some "w" }

/-- Witness for C8 at a request with only the dependent-text filter. -/
theorem c8_where_nonempty_witness :
    validRequest c8req ∧
    (whereState c8req).where_clauses ≠ [] ∧
    renderFrags (final_where_frags c8req) ≠ "" :=
  ⟨by decide, (c8_where_nonempty c8req (by decide)).1,
   (c8_where_nonempty c8req (by decide)).2.2.2⟩

/-! ## Claim C9: surfacing of store execution failures -/

def c9req : FilterRequest := { head_text := some "x" }

set_option maxRecDepth 8000 in
/-- Claim C9, counterexample: for a database error with message
`connection refused`, the handler returns HTTP 500 whose detail is
`Database error: connection refused` — the detailed database error text
reaches the caller (line 274 interpolates `e.detail or e.message` into the
response), so the response is not a generic message. -/
theorem c9_counterexample :
    (search_dependencies c9req (DbOutcome.pgError none "connection refused")).1
      = HttpOutcome.error 500 "Database error: connection refused" ∧
    containsSubstr "Database error: connection refused" "connection refused"
      = true ∧
    ("Database error: connection refused" : String) ≠ "Internal Server Error" :=
  ⟨rfl, by decide, by decide⟩

/-- Claim C9 (amended): a store execution failure surfaces as HTTP 500 and
the detailed cause is recorded in the operator log; however the 500 detail is
generic (`Internal Server Error`) only for non-database exceptions — for
database errors the detail embeds the database error text
(`Database error: ` followed by the error's detail-or-message). -/
theorem c9_error_surface_amended (r : FilterRequest) (h : validRequest r) :
    (∀ d m, (search_dependencies r (DbOutcome.pgError d m)).1 =
        HttpOutcome.error 500 ("Database error: " ++ pyOr d m) ∧
      LogEntry.errorDb d m ∈ (search_dependencies r (DbOutcome.pgError d m)).2.logs) ∧
    (∀ m, (search_dependencies r (DbOutcome.otherError m)).1 =
        HttpOutcome.error 500 "Internal Server Error" ∧
      LogEntry.errorUnexpected m ∈
        (search_dependencies r (DbOutcome.otherError m)).2.logs) := by
  have hT : (!pyTruthyStr r.head_text && !pyTruthyStr r.dpdt_text) = false := by
    rcases valid_text_flag r h with ht | ht <;> simp [ht]
  constructor
  · intro d m
    constructor <;> simp [search_dependencies, hT]
  · intro m
    constructor <;> simp [search_dependencies, hT]

set_option maxRecDepth 8000 in
/-- Witness for the amended C9: a Postgres error with a truthy `detail`
field surfaces it in the 500 detail, and the error is logged. -/
theorem c9_error_surface_amended_witness :
    validRequest c9req ∧
    (search_dependencies c9req (DbOutcome.pgError (some "dup key") "msg")).1 =
      HttpOutcome.error 500 ("Database error: " ++ pyOr (some "dup key") "msg") ∧
    LogEntry.errorDb (some "dup key") "msg" ∈
      (search_dependencies c9req (DbOutcome.pgError (some "dup key") "msg")).2.logs :=
  ⟨by decide,
   ((c9_error_surface_amended c9req (by decide)).1 (some "dup key") "msg").1,
   ((c9_error_surface_amended c9req (by decide)).1 (some "dup key") "msg").2⟩

/-! ## Claim C10: example pagination is a frame effect -/

/-- The request with only the example-pagination window changed. -/
def withExamplesPage (r : FilterRequest) (l o : Int) : FilterRequest :=
  { r with examples_limit := l, examples_offset := o }

/-- The fragments of the query template outside the limited-examples
subquery. -/
def outerFrags (r : FilterRequest) : List Frag :=
  [Frag.lit qtAfterExamples] ++ total_matching_examples_count_sql r ++
  [Frag.lit qtAfterCount] ++ final_where_frags r ++
  [Frag.lit qtFreqInf, .ph (freq_inf_pos r), .lit qtAfterFreqInf] ++
  (if r.freq_sup.isSome then
    [Frag.lit qtFreqSupLit, .ph ((freq_sup_pos r).getD 0)]
   else [Frag.lit ""]) ++
  [Frag.lit qtOrderLimit, .ph (results_limit_pos r), .lit " OFFSET ",
   .ph (results_offset_pos r), .lit qtTail]

theorem ex_pos_not_in_outer (r : FilterRequest) (k : Nat)
    (hk : k = examples_limit_pos r ∨ k = examples_offset_pos r) :
    k ∉ phs (outerFrags r) := by
  have h2 := pcAfterFreq_eq r
  have h3 := pcAfterStyles_eq r
  have hfi := freq_inf_pos_eq r
  have hk' : k = pcAfterStyles r ∨ k = pcAfterStyles r + 1 := by
    rcases hk with rfl | rfl
    · exact Or.inl rfl
    · exact Or.inr rfl
  intro hmem
  cases hs : r.freq_sup.isSome <;>
    rw [hs] at h2 <;>
    simp only [Bool.toNat_true, Bool.toNat_false] at h2 <;>
    simp [outerFrags, phs_total, phs_books, phs_final_where, freq_sup_pos, hs,
      List.mem_append, List.mem_range'_1, results_limit_pos,
      results_offset_pos] at hmem <;>
    omega

/-- Claim C10: changing only `examples_limit`/`examples_offset` leaves the
query text unchanged (including WHERE predicates, ORDER BY and the outer
LIMIT/OFFSET) and changes only the two bound values at the example-pagination
positions; those placeholders occur only inside the limited-examples
subquery. -/
theorem c10_example_pagination_frame (r : FilterRequest) (l o : Int)
    (h : validRequest r) (hl : 0 < l) (ho : 0 ≤ o) :
    query_template (withExamplesPage r l o) = query_template r ∧
    (∃ P, paramsList r = P ++ [Val.int r.examples_limit,
        Val.int r.examples_offset, Val.int r.results_limit,
        Val.int r.results_offset] ∧
      paramsList (withExamplesPage r l o) = P ++ [Val.int l, Val.int o,
        Val.int r.results_limit, Val.int r.results_offset] ∧
      P.length = examples_limit_pos r - 1) ∧
    (query_template r =
      [Frag.lit qtHead] ++ example_fetch_sql r ++ outerFrags r ∧
      Frag.ph (examples_limit_pos r) ∈ example_fetch_sql r ∧
      Frag.ph (examples_offset_pos r) ∈ example_fetch_sql r ∧
      Frag.ph (examples_limit_pos r) ∉ [Frag.lit qtHead] ++ outerFrags r ∧
      Frag.ph (examples_offset_pos r) ∉ [Frag.lit qtHead] ++ outerFrags r) := by
  refine ⟨rfl, ?_, ?_, ?_, ?_, ?_, ?_⟩
  · refine ⟨(whereState r).params ++
      ([Val.int r.freq_inf] ++
       (match r.freq_sup with | some v => [Val.int v] | none => []) ++
       (if pyTruthyList r.book_names then
         [Val.strList (r.book_names.getD [])] else []) ++
       (if pyTruthyList r.book_categories then
         [Val.strList (r.book_categories.getD [])] else []) ++
       (if pyTruthyList r.book_periods then
         [Val.strList (r.book_periods.getD [])] else []) ++
       (if pyTruthyList r.book_styles then
         [Val.strList (r.book_styles.getD [])] else [])), ?_, ?_, ?_⟩
    · simp [paramsList, paramsTail, List.append_assoc]
    · simp [paramsList, paramsTail, withExamplesPage, List.append_assoc]
      rfl
    · have hNr := params_length r
      have h2 := pcAfterFreq_eq r
      have h3 := pcAfterStyles_eq r
      have h4 : examples_limit_pos r = pcAfterStyles r := rfl
      have hL : (paramsList r).length =
          ((whereState r).params ++
            ([Val.int r.freq_inf] ++
             (match r.freq_sup with | some v => [Val.int v] | none => []) ++
             (if pyTruthyList r.book_names then
               [Val.strList (r.book_names.getD [])] else []) ++
             (if pyTruthyList r.book_categories then
               [Val.strList (r.book_categories.getD [])] else []) ++
             (if pyTruthyList r.book_periods then
               [Val.strList (r.book_periods.getD [])] else []) ++
             (if pyTruthyList r.book_styles then
               [Val.strList (r.book_styles.getD [])] else []))).length + 4 := by
        conv_lhs => rw [show paramsList r = ((whereState r).params ++
          ([Val.int r.freq_inf] ++
           (match r.freq_sup with | some v => [Val.int v] | none => []) ++
           (if pyTruthyList r.book_names then
             [Val.strList (r.book_names.getD [])] else []) ++
           (if pyTruthyList r.book_categories then
             [Val.strList (r.book_categories.getD [])] else []) ++
           (if pyTruthyList r.book_periods then
             [Val.strList (r.book_periods.getD [])] else []) ++
           (if pyTruthyList r.book_styles then
             [Val.strList (r.book_styles.getD [])] else []))) ++
          [Val.int r.examples_limit, Val.int r.examples_offset,
           Val.int r.results_limit, Val.int r.results_offset] from by
            simp [paramsList, paramsTail, List.append_assoc]]
        simp [List.length_append]
        omega
      omega
  · simp [query_template, outerFrags, List.append_assoc]
  · simp [example_fetch_sql]
  · simp [example_fetch_sql]
  · intro hmem
    rcases List.mem_append.mp hmem with hA | hB
    · simp at hA
    · exact ex_pos_not_in_outer r _ (Or.inl rfl) ((ph_mem_iff _ _).mp hB)
  · intro hmem
    rcases List.mem_append.mp hmem with hA | hB
    · simp at hA
    · exact ex_pos_not_in_outer r _ (Or.inr rfl) ((ph_mem_iff _ _).mp hB)

def c10req : FilterRequest := { head_text := some "x", book_periods := some ["唐"] }

/-- Witness for C10: moving the example window of a concrete request leaves
the query text unchanged. -/
theorem c10_example_pagination_frame_witness :
    validRequest c10req ∧
    query_template (withExamplesPage c10req 10 2) = query_template c10req :=
  ⟨by decide,
   (c10_example_pagination_frame c10req 10 2 (by decide) (by decide)
     (by decide)).1⟩

end Oldspeak
